import Mathlib

/-!
Shallow embedding of the Flappy Bird game core (src/main.rs) and proofs
about its specification claims.

Floating-point (`f32`) quantities are embedded as rationals: every claim
checked here concerns values and step sizes (0.5, 2.5, ...) that `f32`
represents and adds exactly at the magnitudes involved, so exact rational
arithmetic is a faithful model.  `i32` scores are embedded as integers.
The process-wide random generator (`rand::thread_rng`) is embedded as a
stream of rationals; `gen_range(lo..hi)` maps the next stream value into
`[lo, hi)` via its fractional part, so the embedded generator can produce
exactly the values of the half-open range and nothing else, matching the
contract of `rand`'s `gen_range`.  File I/O (high-score persistence) is
embedded by passing read results and the parse function explicitly.
-/

/-- Constant GRAVITY from src/main.rs. -/
def gravity : ℚ := 1/2

/-- Constant JUMP_STRENGTH from src/main.rs. -/
def jumpStrength : ℚ := -8

/-- Constant BIRD_SIZE from src/main.rs. -/
def birdSize : ℚ := 30

/-- Constant PIPE_WIDTH from src/main.rs. -/
def pipeWidth : ℚ := 60

/-- Constant GROUND_HEIGHT from src/main.rs. -/
def groundHeight : ℚ := 80

/-- The window is fixed at 800x600 and non-resizable (window_conf), so
macroquad's screen_width() is the constant 800. -/
def screenW : ℚ := 800

/-- The window is fixed at 800x600 and non-resizable (window_conf), so
macroquad's screen_height() is the constant 600. -/
def screenH : ℚ := 600

/-- The colors the game logic mentions (purely cosmetic data). -/
inductive Color where
  | yellow | green | skyblue | gold | red | orange
deriving DecidableEq, Repr

/-- GameState enum from src/main.rs. -/
inductive GameState where
  | menu | playing | paused | gameOver
deriving DecidableEq, Repr

/-- Difficulty enum from src/main.rs. -/
inductive Difficulty where
  | easy | medium | hard | extreme
deriving DecidableEq, Repr

/-- Difficulty::pipe_gap. -/
def Difficulty.pipeGap : Difficulty → ℚ
  | .easy => 220
  | .medium => 180
  | .hard => 140
  | .extreme => 120

/-- Difficulty::pipe_speed. -/
def Difficulty.pipeSpeed : Difficulty → ℚ
  | .easy => 2
  | .medium => 5/2
  | .hard => 3
  | .extreme => 19/5

/-- The embedded random generator: an infinite stream of rationals and a
cursor.  Each draw consumes one stream value. -/
structure Rng where
  vals : ℕ → ℚ
  idx : ℕ

/-- Draw the next raw stream value. -/
def Rng.next (r : Rng) : ℚ × Rng :=
  (r.vals r.idx, ⟨r.vals, r.idx + 1⟩)

/-- Embedding of rand's gen_range(lo..hi): the draw is the next stream
value mapped into [lo, hi) through its fractional part.  For lo < hi the
result ranges over exactly [lo, hi), the contract of gen_range on a
non-empty half-open range. -/
def genRange (lo hi : ℚ) (r : Rng) : ℚ × Rng :=
  let n := Rng.next r
  (lo + (hi - lo) * Int.fract n.1, n.2)

/-- Rust f32::clamp(lo, hi): lo if below, hi if above, the value otherwise. -/
def clampQ (x lo hi : ℚ) : ℚ :=
  if x < lo then lo else if x > hi then hi else x

/-- Axis-aligned rectangle, macroquad's Rect. -/
structure Rect where
  x : ℚ
  y : ℚ
  w : ℚ
  h : ℚ
deriving DecidableEq, Repr

/-- macroquad's Rect::overlaps (all comparisons non-strict). -/
def Rect.overlaps (a b : Rect) : Bool :=
  decide (a.x ≤ b.x + b.w) && decide (a.x + a.w ≥ b.x) &&
  decide (a.y ≤ b.y + b.h) && decide (a.y + a.h ≥ b.y)

/-- Bird struct from src/main.rs. -/
structure Bird where
  x : ℚ
  y : ℚ
  velocity : ℚ
  rotation : ℚ
  color : Color
deriving DecidableEq, Repr

/-- Bird::new. -/
def Bird.new (x y : ℚ) : Bird :=
  ⟨x, y, 0, 0, Color.yellow⟩

/-- Bird::update: velocity += GRAVITY; y += velocity;
rotation = (velocity * 3).clamp(-30, 90). -/
def Bird.update (b : Bird) : Bird :=
  let v := b.velocity + gravity
  { b with velocity := v, y := b.y + v, rotation := clampQ (v * 3) (-30) 90 }

/-- Bird::jump: velocity := JUMP_STRENGTH (overrides, not adds). -/
def Bird.jump (b : Bird) : Bird :=
  { b with velocity := jumpStrength }

/-- Bird::get_bounds: a hitbox inset 5 on each side of the 30x30 sprite. -/
def Bird.getBounds (b : Bird) : Rect :=
  ⟨b.x - birdSize/2 + 5, b.y - birdSize/2 + 5, birdSize - 10, birdSize - 10⟩

/-- Pipe struct from src/main.rs. -/
structure Pipe where
  x : ℚ
  gap_y : ℚ
  gap_height : ℚ
  scored : Bool
  color_top : Color
  color_bottom : Color
deriving DecidableEq, Repr

/-- Pipe::new: gap_y = gen_range(150.0..(screen_height() - GROUND_HEIGHT -
gap_height - 100.0)).  The screen height is a parameter `sh` standing for
the ambient screen_height() call. -/
def Pipe.new (sh x gapHeight : ℚ) (r : Rng) : Pipe × Rng :=
  let g := genRange 150 (sh - groundHeight - gapHeight - 100) r
  (⟨x, g.1, gapHeight, false, Color.green, Color.green⟩, g.2)

/-- Pipe::update: x -= speed. -/
def Pipe.update (p : Pipe) (speed : ℚ) : Pipe :=
  { p with x := p.x - speed }

/-- Pipe::collides_with: bird hitbox against the top rectangle
[0, gap_y] and the bottom rectangle [gap_y + gap_height, field bottom]. -/
def Pipe.collidesWith (p : Pipe) (b : Bird) : Bool :=
  let bb := Bird.getBounds b
  let top : Rect := ⟨p.x, 0, pipeWidth, p.gap_y⟩
  if Rect.overlaps bb top then true
  else
    let bottomY := p.gap_y + p.gap_height
    Rect.overlaps bb ⟨p.x, bottomY, pipeWidth, screenH - bottomY - groundHeight⟩

/-- Pipe::is_offscreen: right edge past the left boundary. -/
def Pipe.isOffscreen (p : Pipe) : Bool :=
  decide (p.x + pipeWidth < 0)

/-- HighScores struct from src/main.rs: one i32 best per difficulty. -/
structure HighScores where
  easy : ℤ
  medium : ℤ
  hard : ℤ
  extreme : ℤ
deriving DecidableEq, Repr

/-- Default for HighScores: all zeros. -/
def HighScores.defaultScores : HighScores :=
  ⟨0, 0, 0, 0⟩

/-- HighScores::load, with the file read result and the JSON parse
function passed explicitly (fs::read_to_string may fail: Option; serde
parse may fail: Option).  An absent or unparseable file falls back to the
default. -/
def HighScores.load (read : Option α) (parse : α → Option HighScores) : HighScores :=
  match read with
  | some data => (parse data).getD HighScores.defaultScores
  | none => HighScores.defaultScores

/-- HighScores::get. -/
def HighScores.get (hs : HighScores) : Difficulty → ℤ
  | .easy => hs.easy
  | .medium => hs.medium
  | .hard => hs.hard
  | .extreme => hs.extreme

/-- The per-difficulty field assignment inside HighScores::update. -/
def HighScores.setBest (hs : HighScores) (d : Difficulty) (s : ℤ) : HighScores :=
  match d with
  | .easy => { hs with easy := s }
  | .medium => { hs with medium := s }
  | .hard => { hs with hard := s }
  | .extreme => { hs with extreme := s }

/-- HighScores::update: overwrite and return true iff strictly greater. -/
def HighScores.update (hs : HighScores) (d : Difficulty) (s : ℤ) : Bool × HighScores :=
  if s > hs.get d then (true, hs.setBest d s) else (false, hs)

/-- Particle struct from src/main.rs. -/
structure Particle where
  x : ℚ
  y : ℚ
  vx : ℚ
  vy : ℚ
  life : ℚ
  color : Color
  size : ℚ
deriving DecidableEq, Repr

/-- Particle::update: x += vx; y += vy; vy += 0.2; life -= 0.02. -/
def Particle.update (p : Particle) : Particle :=
  { p with x := p.x + p.vx, y := p.y + p.vy, vy := p.vy + 1/5, life := p.life - 1/50 }

/-- Particle::is_dead: life ≤ 0. -/
def Particle.isDead (p : Particle) : Bool :=
  decide (p.life ≤ 0)

/-- Game::spawn_particles: count particles at (x, y), each drawing
vx ∈ gen_range(-3..3), vy ∈ gen_range(-5..-1), life 1, size ∈ gen_range(2..6). -/
def spawnParticles (x y : ℚ) (c : Color) : ℕ → Rng → List Particle × Rng
  | 0, r => ([], r)
  | n + 1, r =>
    let vx := genRange (-3) 3 r
    let vy := genRange (-5) (-1) vx.2
    let sz := genRange 2 6 vy.2
    let rest := spawnParticles x y c n sz.2
    (⟨x, y, vx.1, vy.1, 1, c, sz.1⟩ :: rest.1, rest.2)

/-- Game struct from src/main.rs (the fields the update logic touches;
draw-only data is omitted). -/
structure Game where
  bird : Bird
  pipes : List Pipe
  particles : List Particle
  score : ℤ
  high_scores : HighScores
  state : GameState
  difficulty : Difficulty
  pipe_spawn_timer : ℚ
  background_offset : ℚ
  show_hitboxes : Bool
  powerup_timer : ℚ
  invincible : Bool
  slow_motion : Bool
  slow_motion_timer : ℚ
  rng : Rng

/-- The already-debounced per-frame input events Game::update consumes. -/
structure Input where
  space : Bool
  enter : Bool
  escape : Bool
  mouseLeft : Bool
  keyH : Bool
  keyI : Bool
  keyS : Bool
  keyQ : Bool
  key1 : Bool
  key2 : Bool
  key3 : Bool
  key4 : Bool
deriving DecidableEq, Repr

/-- The frame with no input events. -/
def Input.none : Input :=
  ⟨false, false, false, false, false, false, false, false, false, false, false, false⟩

/-- Game::reset: fresh bird at (150, screen_height()/2), cleared pipes,
particles, score, spawn timer, and the invincible / slow_motion flags and
slow-motion timer.  (show_hitboxes, background_offset, powerup_timer,
high_scores, difficulty and state are untouched.) -/
def Game.reset (g : Game) : Game :=
  { g with
    bird := Bird.new 150 (screenH / 2)
    pipes := []
    particles := []
    score := 0
    pipe_spawn_timer := 0
    invincible := false
    slow_motion := false
    slow_motion_timer := 0 }

/-- Game::spawn_pipe: push a pipe at screen_width() + 50 with the
difficulty's gap height. -/
def Game.spawnPipe (g : Game) : Game :=
  let pr := Pipe.new screenH (screenW + 50) g.difficulty.pipeGap g.rng
  { g with pipes := g.pipes ++ [pr.1], rng := pr.2 }

/-- The accumulator threaded through the per-pipe loop of Game::update
(lines 471-491): processed pipes in order, plus the mutable score, state,
high scores, particles and rng. -/
structure PipeAcc where
  pipes : List Pipe
  score : ℤ
  state : GameState
  highScores : HighScores
  particles : List Particle
  rng : Rng

/-- The pure effect of one loop iteration on the pipe itself: advance by
speed, then mark scored when not yet scored and the right edge has passed
the bird's x. -/
def stepPipe (bird : Bird) (speed : ℚ) (p : Pipe) : Pipe :=
  let p1 := Pipe.update p speed
  if !p1.scored && decide (p1.x + pipeWidth < bird.x) then
    { p1 with scored := true }
  else p1

/-- One iteration of the pipe loop in Game::update: advance the pipe,
score it if freshly passed (score particles burst, score += 1), then,
unless invincible, test collision; a collision sets GameOver, bursts red
particles at the bird and applies the high-score update (save is a file
side effect with no game-state footprint). -/
def pipeStep (bird : Bird) (diff : Difficulty) (inv : Bool) (speed : ℚ)
    (acc : PipeAcc) (p : Pipe) : PipeAcc :=
  let p1 := Pipe.update p speed
  let fresh := !p1.scored && decide (p1.x + pipeWidth < bird.x)
  let p2 := stepPipe bird speed p
  let score1 := if fresh then acc.score + 1 else acc.score
  let goldBurst :=
    if fresh then spawnParticles (p1.x + pipeWidth / 2) (screenH / 2) Color.gold 15 acc.rng
    else ([], acc.rng)
  let parts1 := acc.particles ++ goldBurst.1
  if !inv && Pipe.collidesWith p2 bird then
    let redBurst := spawnParticles bird.x bird.y Color.red 30 goldBurst.2
    let hs1 := HighScores.update acc.highScores diff score1
    ⟨acc.pipes ++ [p2], score1, GameState.gameOver, hs1.2, parts1 ++ redBurst.1, redBurst.2⟩
  else
    ⟨acc.pipes ++ [p2], score1, acc.state, acc.highScores, parts1, goldBurst.2⟩

/-- The whole pipe loop of Game::update, as a fold over the pipe list. -/
def processPipes (bird : Bird) (diff : Difficulty) (inv : Bool) (speed : ℚ)
    (acc : PipeAcc) (ps : List Pipe) : PipeAcc :=
  ps.foldl (pipeStep bird diff inv speed) acc

/-- The jump branch of the Playing arm: impulse plus a small skyblue burst. -/
def Game.handleJump (g : Game) (inp : Input) : Game :=
  if inp.space || inp.mouseLeft then
    let b := Bird.jump g.bird
    let burst := spawnParticles b.x b.y Color.skyblue 5 g.rng
    { g with bird := b, particles := g.particles ++ burst.1, rng := burst.2 }
  else g

/-- The three edge-triggered toggles of the Playing arm. -/
def Game.handleToggles (g : Game) (inp : Input) : Game :=
  let g1 := if inp.keyH then { g with show_hitboxes := !g.show_hitboxes } else g
  let g2 := if inp.keyI then { g1 with invincible := !g1.invincible } else g1
  if inp.keyS then { g2 with slow_motion := !g2.slow_motion } else g2

/-- The time_scale local of the Playing arm. -/
def timeScale (slowMotion : Bool) : ℚ :=
  if slowMotion then 1/2 else 1

/-- Bird advancement in the Playing arm: a single unscaled Bird::update. -/
def Game.stepBird (g : Game) : Game :=
  { g with bird := Bird.update g.bird }

/-- Background scroll: offset -= 1 * time_scale, wrapping to 0 at -50. -/
def Game.stepBackground (g : Game) (ts : ℚ) : Game :=
  let bg := g.background_offset - 1 * ts
  { g with background_offset := if bg ≤ -50 then 0 else bg }

/-- Spawn cadence: timer += 1 * time_scale; past 90 spawn one pipe and
clear the timer. -/
def Game.stepSpawn (g : Game) (ts : ℚ) : Game :=
  let t := g.pipe_spawn_timer + 1 * ts
  if t > 90 then { g.spawnPipe with pipe_spawn_timer := 0 }
  else { g with pipe_spawn_timer := t }

/-- The pipe loop, writing the accumulator back into the game. -/
def Game.stepPipes (g : Game) (ts : ℚ) : Game :=
  let speed := g.difficulty.pipeSpeed * ts
  let acc := processPipes g.bird g.difficulty g.invincible speed
    ⟨[], g.score, g.state, g.high_scores, g.particles, g.rng⟩ g.pipes
  { g with pipes := acc.pipes, score := acc.score, state := acc.state,
           high_scores := acc.highScores, particles := acc.particles, rng := acc.rng }

/-- Purge of offscreen pipes: retain !is_offscreen. -/
def Game.stepRetain (g : Game) : Game :=
  { g with pipes := g.pipes.filter (fun p => !p.isOffscreen) }

/-- Ground/ceiling collision check: unless invincible, a bird edge at or
past the ceiling or the ground line ends the run (red burst, high-score
update). -/
def Game.stepGround (g : Game) : Game :=
  if !g.invincible &&
      (decide (g.bird.y - birdSize / 2 ≤ 0) ||
       decide (g.bird.y + birdSize / 2 ≥ screenH - groundHeight)) then
    let redBurst := spawnParticles g.bird.x g.bird.y Color.red 30 g.rng
    let hs1 := HighScores.update g.high_scores g.difficulty g.score
    { g with state := GameState.gameOver, particles := g.particles ++ redBurst.1,
             rng := redBurst.2, high_scores := hs1.2 }
  else g

/-- Particle aging and pruning. -/
def Game.stepParticles (g : Game) : Game :=
  { g with particles := (g.particles.map Particle.update).filter (fun p => !p.isDead) }

/-- The Playing arm of Game::update.  Escape returns early to Paused;
otherwise: jump, toggles, time_scale, bird update (unscaled), background
scroll, spawn cadence, the pipe loop, offscreen purge, ground/ceiling
check, particle aging — in source order. -/
def Game.playingUpdate (g : Game) (inp : Input) : Game :=
  if inp.escape then { g with state := GameState.paused }
  else
    let g1 := Game.handleToggles (Game.handleJump g inp) inp
    let ts := timeScale g1.slow_motion
    Game.stepParticles (Game.stepGround (Game.stepRetain
      (Game.stepPipes (Game.stepSpawn (Game.stepBackground
        (Game.stepBird g1) ts) ts) ts)))

/-- The four difficulty-select key checks of the Menu arm (they run after
the start check, in source order Key1..Key4). -/
def Game.selectDifficulty (g : Game) (inp : Input) : Game :=
  let g2 := if inp.key1 then { g with difficulty := Difficulty.easy } else g
  let g3 := if inp.key2 then { g2 with difficulty := Difficulty.medium } else g2
  let g4 := if inp.key3 then { g3 with difficulty := Difficulty.hard } else g3
  if inp.key4 then { g4 with difficulty := Difficulty.extreme } else g4

/-- The Menu arm of Game::update: start resets and enters Playing; the
four difficulty keys select the difficulty. -/
def Game.menuUpdate (g : Game) (inp : Input) : Game :=
  Game.selectDifficulty
    (if inp.space || inp.enter then { g.reset with state := GameState.playing } else g) inp

/-- The Paused arm of Game::update. -/
def Game.pausedUpdate (g : Game) (inp : Input) : Game :=
  let g1 := if inp.escape || inp.space then { g with state := GameState.playing } else g
  if inp.keyQ then { g1 with state := GameState.menu } else g1

/-- The GameOver arm of Game::update: retry resets and enters Playing;
Escape or Q returns to the menu. -/
def Game.gameOverUpdate (g : Game) (inp : Input) : Game :=
  let g1 := if inp.space || inp.enter then { g.reset with state := GameState.playing } else g
  if inp.escape || inp.keyQ then { g1 with state := GameState.menu } else g1

/-- Game::update: dispatch on the current state. -/
def Game.update (g : Game) (inp : Input) : Game :=
  match g.state with
  | GameState.menu => Game.menuUpdate g inp
  | GameState.playing => Game.playingUpdate g inp
  | GameState.paused => Game.pausedUpdate g inp
  | GameState.gameOver => Game.gameOverUpdate g inp

/-- A fixed concrete generator stream (all zeros), used for witnesses. -/
def rng0 : Rng := ⟨fun _ => 0, 0⟩

/-- The embedded gen_range lands in [lo, hi) whenever the range is
non-empty. -/
lemma genRange_mem (lo hi : ℚ) (r : Rng) (h : lo < hi) :
    lo ≤ (genRange lo hi r).1 ∧ (genRange lo hi r).1 < hi := by
  unfold genRange Rng.next
  have h0 := Int.fract_nonneg (r.vals r.idx)
  have h1 := Int.fract_lt_one (r.vals r.idx)
  constructor
  · simp only
    nlinarith
  · simp only
    nlinarith

/-- Every value of [lo, hi) is a possible output of the embedded
gen_range. -/
lemma genRange_surjective (lo hi t : ℚ) (h0 : lo ≤ t) (h1 : t < hi) :
    ∃ r : Rng, (genRange lo hi r).1 = t := by
  have hlh : lo < hi := lt_of_le_of_lt h0 h1
  refine ⟨⟨fun _ => (t - lo) / (hi - lo), 0⟩, ?_⟩
  unfold genRange Rng.next
  simp only
  have hne : hi - lo ≠ 0 := by linarith
  have hfr : Int.fract ((t - lo) / (hi - lo)) = (t - lo) / (hi - lo) := by
    refine Int.fract_eq_self.mpr ⟨?_, ?_⟩
    · apply div_nonneg <;> linarith
    · rw [div_lt_one (by linarith)]
      linarith
  rw [hfr]
  field_simp

/-- C9: Bird::update always succeeds and sets velocity += 0.5,
y += new velocity, rotation = clamp(new velocity * 3, -30, 90), leaving x
unchanged; in particular from y = 300, velocity = 0 one update yields
velocity = 0.5, y = 300.5, rotation = 1.5. -/
theorem bird_update_kinematics :
    (∀ b : Bird,
      (Bird.update b).velocity = b.velocity + 1/2 ∧
      (Bird.update b).y = b.y + (b.velocity + 1/2) ∧
      (Bird.update b).rotation = clampQ ((b.velocity + 1/2) * 3) (-30) 90 ∧
      (Bird.update b).x = b.x) ∧
    (Bird.update (Bird.new 150 300)).velocity = 1/2 ∧
    (Bird.update (Bird.new 150 300)).y = 601/2 ∧
    (Bird.update (Bird.new 150 300)).rotation = 3/2 := by
  refine ⟨fun b => ⟨rfl, rfl, rfl, rfl⟩, ?_, ?_, ?_⟩ <;>
    norm_num [Bird.update, Bird.new, clampQ, gravity]

/-- C4: HighScores::update returns true exactly when the score strictly
beats the stored best for that difficulty, overwrites only in that case
and only that difficulty's slot, and a second update with the same score
returns false and changes nothing (idempotence). -/
theorem highscores_update_spec :
    ∀ (hs : HighScores) (d : Difficulty) (s : ℤ),
      ((HighScores.update hs d s).1 = decide (s > hs.get d)) ∧
      ((HighScores.update hs d s).2 =
        if s > hs.get d then hs.setBest d s else hs) ∧
      ((HighScores.update hs d s).2.get d =
        if s > hs.get d then s else hs.get d) ∧
      (∀ e : Difficulty, e = d ∨ (HighScores.update hs d s).2.get e = hs.get e) ∧
      (HighScores.update (HighScores.update hs d s).2 d s =
        (false, (HighScores.update hs d s).2)) := by
  intro hs d s
  have hset : ∀ e : Difficulty, e = d ∨ (hs.setBest d s).get e = hs.get e := by
    intro e
    cases d <;> cases e <;> simp [HighScores.setBest, HighScores.get]
  have hgetset : (hs.setBest d s).get d = s := by
    cases d <;> simp [HighScores.setBest, HighScores.get]
  by_cases h : s > hs.get d
  · refine ⟨by simp [HighScores.update, h], by simp [HighScores.update, h], ?_, ?_, ?_⟩
    · simp [HighScores.update, h, hgetset]
    · intro e
      rcases hset e with he | he
      · exact Or.inl he
      · right
        simp [HighScores.update, h, he]
    · simp [HighScores.update, h, hgetset]
  · refine ⟨by simp [HighScores.update, h], by simp [HighScores.update, h], ?_, ?_, ?_⟩
    · simp [HighScores.update, h]
    · intro e
      right
      simp [HighScores.update, h]
    · simp [HighScores.update, h]

/-- C8: HighScores::load never surfaces an error: a missing file or an
unparseable file yields the all-zero default record, and a file that
parses yields exactly the persisted record. -/
theorem highscores_load_spec :
    ∀ (p : ℕ → Option HighScores) (d : ℕ) (hs : HighScores),
      HighScores.load Option.none p = HighScores.defaultScores ∧
      HighScores.defaultScores = ⟨0, 0, 0, 0⟩ ∧
      (p d = Option.none → HighScores.load (some d) p = HighScores.defaultScores) ∧
      (p d = some hs → HighScores.load (some d) p = hs) := by
  intro p d hs
  refine ⟨rfl, rfl, ?_, ?_⟩
  · intro h
    simp [HighScores.load, h]
  · intro h
    simp [HighScores.load, h]

/-- A parse function that always fails (models a malformed file). -/
def parseFail : ℕ → Option HighScores := fun _ => Option.none

/-- A parse function that always succeeds with the record (1, 2, 3, 4). -/
def parseConst : ℕ → Option HighScores := fun _ => some ⟨1, 2, 3, 4⟩

/-- Witness for the C8 theorem at concrete parse functions. -/
theorem highscores_load_spec_witness :
    HighScores.load (some 0) parseFail = HighScores.defaultScores ∧
    HighScores.load (some 0) parseConst = ⟨1, 2, 3, 4⟩ :=
  ⟨(highscores_load_spec parseFail 0 ⟨1, 2, 3, 4⟩).2.2.1 rfl,
   (highscores_load_spec parseConst 0 ⟨1, 2, 3, 4⟩).2.2.2 rfl⟩

/-- C2: with screen height 600, ground height 80 and gap height 180 the
generated gap center always lies in [150, 250) — in fact in [150, 240),
since 600 - 80 - 180 - 100 = 240. -/
theorem pipe_gap_band_concrete :
    ∀ (x : ℚ) (r : Rng),
      150 ≤ (Pipe.new 600 x 180 r).1.gap_y ∧ (Pipe.new 600 x 180 r).1.gap_y < 250 := by
  intro x r
  have h := genRange_mem 150 (600 - groundHeight - 180 - 100) r
    (by norm_num [groundHeight])
  have hg : (Pipe.new 600 x 180 r).1.gap_y = (genRange 150 (600 - groundHeight - 180 - 100) r).1 := rfl
  rw [hg]
  refine ⟨h.1, lt_trans h.2 (by norm_num [groundHeight])⟩

/-- C7: whenever the legal band [150, screen_height - ground_height -
gap_height - 100) is non-empty, every generated gap center lies in it,
and every value of the band is a possible draw (the draw is uniform over
the band in the sense that the generator reaches exactly the band). -/
theorem pipe_gap_band_general :
    ∀ (sh x gapH : ℚ) (r : Rng), 150 < sh - groundHeight - gapH - 100 →
      (150 ≤ (Pipe.new sh x gapH r).1.gap_y ∧
       (Pipe.new sh x gapH r).1.gap_y < sh - groundHeight - gapH - 100) ∧
      (∀ t : ℚ, 150 ≤ t → t < sh - groundHeight - gapH - 100 →
        ∃ r2 : Rng, (Pipe.new sh x gapH r2).1.gap_y = t) := by
  intro sh x gapH r h
  constructor
  · exact genRange_mem 150 (sh - groundHeight - gapH - 100) r h
  · intro t h0 h1
    obtain ⟨r2, hr2⟩ := genRange_surjective 150 (sh - groundHeight - gapH - 100) t h0 h1
    exact ⟨r2, hr2⟩

/-- Witness for the C7 theorem: screen height 600, gap height 180, the
all-zero stream, and reachability of the band value 200. -/
theorem pipe_gap_band_general_witness :
    ((150 : ℚ) < 600 - groundHeight - 180 - 100) ∧
    (150 ≤ (Pipe.new 600 0 180 rng0).1.gap_y ∧
     (Pipe.new 600 0 180 rng0).1.gap_y < 600 - groundHeight - 180 - 100) ∧
    (∃ r2 : Rng, (Pipe.new 600 0 180 r2).1.gap_y = 200) :=
  ⟨by norm_num [groundHeight],
   (pipe_gap_band_general 600 0 180 rng0 (by norm_num [groundHeight])).1,
   (pipe_gap_band_general 600 0 180 rng0 (by norm_num [groundHeight])).2 200
     (by norm_num) (by norm_num [groundHeight])⟩

/-- One loop iteration appends exactly the advanced-and-scored pipe. -/
lemma pipeStep_pipes (bird : Bird) (diff : Difficulty) (inv : Bool) (speed : ℚ)
    (acc : PipeAcc) (p : Pipe) :
    (pipeStep bird diff inv speed acc p).pipes = acc.pipes ++ [stepPipe bird speed p] := by
  simp only [pipeStep]
  split <;> rfl

/-- One loop iteration adds 1 to the score exactly when the pipe is
freshly passed. -/
lemma pipeStep_score (bird : Bird) (diff : Difficulty) (inv : Bool) (speed : ℚ)
    (acc : PipeAcc) (p : Pipe) :
    (pipeStep bird diff inv speed acc p).score =
      acc.score + (if !p.scored && decide (p.x - speed + pipeWidth < bird.x) then 1 else 0) := by
  have hfresh : (!(Pipe.update p speed).scored &&
      decide ((Pipe.update p speed).x + pipeWidth < bird.x)) =
      (!p.scored && decide (p.x - speed + pipeWidth < bird.x)) := rfl
  simp only [pipeStep, hfresh]
  by_cases h : (!p.scored && decide (p.x - speed + pipeWidth < bird.x)) = true <;>
    simp only [h, if_true, if_false, Bool.false_eq_true, ite_false, ite_true,
      eq_self_iff_true] <;>
    (split <;> simp)

/-- With the invincibility flag set, one loop iteration changes neither
the game state nor the high scores. -/
lemma pipeStep_invincible (bird : Bird) (diff : Difficulty) (speed : ℚ)
    (acc : PipeAcc) (p : Pipe) :
    (pipeStep bird diff true speed acc p).state = acc.state ∧
    (pipeStep bird diff true speed acc p).highScores = acc.highScores := by
  simp only [pipeStep]
  simp

/-- The pipe loop maps stepPipe over the list, in order. -/
lemma processPipes_pipes (bird : Bird) (diff : Difficulty) (inv : Bool) (speed : ℚ) :
    ∀ (ps : List Pipe) (acc : PipeAcc),
      (processPipes bird diff inv speed acc ps).pipes =
        acc.pipes ++ ps.map (stepPipe bird speed) := by
  intro ps
  induction ps with
  | nil => intro acc; simp [processPipes]
  | cons p ps ih =>
    intro acc
    have h1 : processPipes bird diff inv speed acc (p :: ps) =
        processPipes bird diff inv speed (pipeStep bird diff inv speed acc p) ps := rfl
    rw [h1, ih, pipeStep_pipes]
    simp

/-- The pipe loop adds to the score exactly one per freshly passed pipe. -/
lemma processPipes_score (bird : Bird) (diff : Difficulty) (inv : Bool) (speed : ℚ) :
    ∀ (ps : List Pipe) (acc : PipeAcc),
      (processPipes bird diff inv speed acc ps).score =
        acc.score + (ps.countP fun p => !p.scored && decide (p.x - speed + pipeWidth < bird.x)) := by
  intro ps
  induction ps with
  | nil => intro acc; simp [processPipes]
  | cons p ps ih =>
    intro acc
    have h1 : processPipes bird diff inv speed acc (p :: ps) =
        processPipes bird diff inv speed (pipeStep bird diff inv speed acc p) ps := rfl
    rw [h1, ih, pipeStep_score]
    rw [List.countP_cons]
    push_cast
    by_cases h : (!p.scored && decide (p.x - speed + pipeWidth < bird.x)) = true <;>
      simp [h] <;> ring

/-- With the invincibility flag set, the whole pipe loop changes neither
the game state nor the high scores. -/
lemma processPipes_invincible (bird : Bird) (diff : Difficulty) (speed : ℚ) :
    ∀ (ps : List Pipe) (acc : PipeAcc),
      (processPipes bird diff true speed acc ps).state = acc.state ∧
      (processPipes bird diff true speed acc ps).highScores = acc.highScores := by
  intro ps
  induction ps with
  | nil => intro acc; exact ⟨rfl, rfl⟩
  | cons p ps ih =>
    intro acc
    have h1 : processPipes bird diff true speed acc (p :: ps) =
        processPipes bird diff true speed (pipeStep bird diff true speed acc p) ps := rfl
    have h2 := pipeStep_invincible bird diff speed acc p
    rw [h1]
    exact ⟨(ih _).1.trans h2.1, (ih _).2.trans h2.2⟩

/-- The advanced pipe's scored flag: stays true once true, and turns true
exactly when the advanced right edge has passed the bird's x. -/
lemma stepPipe_scored (bird : Bird) (speed : ℚ) (p : Pipe) :
    (stepPipe bird speed p).scored =
      (p.scored || decide (p.x - speed + pipeWidth < bird.x)) := by
  have hfresh : (!(Pipe.update p speed).scored &&
      decide ((Pipe.update p speed).x + pipeWidth < bird.x)) =
      (!p.scored && decide (p.x - speed + pipeWidth < bird.x)) := rfl
  simp only [stepPipe, hfresh]
  cases h : p.scored
  · by_cases hc : p.x - speed + pipeWidth < bird.x <;> simp [h, hc, Pipe.update]
  · simp [h, Pipe.update]

/-- The advanced pipe's x: always exactly the old x minus the speed. -/
lemma stepPipe_x (bird : Bird) (speed : ℚ) (p : Pipe) :
    (stepPipe bird speed p).x = p.x - speed := by
  simp only [stepPipe]
  split <;> rfl

/-- C5: in one pass of the Playing pipe loop, each pipe is mapped in
place: its scored flag becomes old-scored OR (advanced right edge past
the bird's x) — so a set flag never reverts, and across successive
updates the flag flips exactly at the first update whose advanced
position satisfies the passing test — and the score grows by exactly the
number of pipes whose flag flips in this pass (never decremented, never
double-counted, since a flipped pipe fails the !scored test forever
after). -/
theorem pipe_scoring_spec :
    ∀ (bird : Bird) (diff : Difficulty) (inv : Bool) (speed : ℚ) (s0 : ℤ)
      (st : GameState) (hs : HighScores) (parts : List Particle) (r : Rng)
      (ps : List Pipe),
      (processPipes bird diff inv speed ⟨[], s0, st, hs, parts, r⟩ ps).pipes =
        ps.map (stepPipe bird speed) ∧
      (∀ p : Pipe, (stepPipe bird speed p).scored =
        (p.scored || decide (p.x - speed + pipeWidth < bird.x))) ∧
      (∀ p : Pipe, (stepPipe bird speed p).x = p.x - speed) ∧
      (processPipes bird diff inv speed ⟨[], s0, st, hs, parts, r⟩ ps).score =
        s0 + (ps.countP fun p =>
          !p.scored && decide (p.x - speed + pipeWidth < bird.x)) := by
  intro bird diff inv speed s0 st hs parts r ps
  refine ⟨?_, fun p => stepPipe_scored bird speed p, fun p => stepPipe_x bird speed p, ?_⟩
  · rw [processPipes_pipes]
    simp
  · rw [processPipes_score]

/-- Game::handleJump leaves everything but the bird, the particles and
the rng untouched. -/
lemma handleJump_fields (g : Game) (inp : Input) :
    (Game.handleJump g inp).state = g.state ∧
    (Game.handleJump g inp).high_scores = g.high_scores ∧
    (Game.handleJump g inp).invincible = g.invincible ∧
    (Game.handleJump g inp).slow_motion = g.slow_motion ∧
    (Game.handleJump g inp).pipes = g.pipes ∧
    (Game.handleJump g inp).score = g.score ∧
    (Game.handleJump g inp).show_hitboxes = g.show_hitboxes := by
  simp only [Game.handleJump]
  split <;> exact ⟨rfl, rfl, rfl, rfl, rfl, rfl, rfl⟩

/-- Game::handleToggles leaves everything but the three toggle flags
untouched. -/
lemma handleToggles_fields (g : Game) (inp : Input) :
    (Game.handleToggles g inp).state = g.state ∧
    (Game.handleToggles g inp).high_scores = g.high_scores ∧
    (Game.handleToggles g inp).pipes = g.pipes ∧
    (Game.handleToggles g inp).score = g.score ∧
    (Game.handleToggles g inp).bird = g.bird := by
  simp only [Game.handleToggles]
  cases hH : inp.keyH <;> cases hI : inp.keyI <;> cases hS : inp.keyS <;>
    exact ⟨rfl, rfl, rfl, rfl, rfl⟩

/-- When the I key is not pressed this frame, the toggles keep the
invincibility flag. -/
lemma handleToggles_invincible (g : Game) (inp : Input) (h : inp.keyI = false) :
    (Game.handleToggles g inp).invincible = g.invincible := by
  simp only [Game.handleToggles, h]
  cases hH : inp.keyH <;> cases hS : inp.keyS <;> rfl

/-- stepBird touches only the bird. -/
lemma stepBird_fields (g : Game) :
    (Game.stepBird g).state = g.state ∧
    (Game.stepBird g).high_scores = g.high_scores ∧
    (Game.stepBird g).invincible = g.invincible :=
  ⟨rfl, rfl, rfl⟩

/-- stepBackground touches only the background offset. -/
lemma stepBackground_fields (g : Game) (ts : ℚ) :
    (Game.stepBackground g ts).state = g.state ∧
    (Game.stepBackground g ts).high_scores = g.high_scores ∧
    (Game.stepBackground g ts).invincible = g.invincible :=
  ⟨rfl, rfl, rfl⟩

/-- stepSpawn touches only the pipes, the spawn timer and the rng. -/
lemma stepSpawn_fields (g : Game) (ts : ℚ) :
    (Game.stepSpawn g ts).state = g.state ∧
    (Game.stepSpawn g ts).high_scores = g.high_scores ∧
    (Game.stepSpawn g ts).invincible = g.invincible := by
  simp only [Game.stepSpawn, Game.spawnPipe]
  split <;> exact ⟨rfl, rfl, rfl⟩

/-- With the invincibility flag set, the pipe loop phase keeps the game
state and the high scores. -/
lemma stepPipes_invincible (g : Game) (ts : ℚ) (h : g.invincible = true) :
    (Game.stepPipes g ts).state = g.state ∧
    (Game.stepPipes g ts).high_scores = g.high_scores ∧
    (Game.stepPipes g ts).invincible = g.invincible := by
  have hst : (Game.stepPipes g ts).state =
      (processPipes g.bird g.difficulty g.invincible (g.difficulty.pipeSpeed * ts)
        ⟨[], g.score, g.state, g.high_scores, g.particles, g.rng⟩ g.pipes).state := rfl
  have hhs : (Game.stepPipes g ts).high_scores =
      (processPipes g.bird g.difficulty g.invincible (g.difficulty.pipeSpeed * ts)
        ⟨[], g.score, g.state, g.high_scores, g.particles, g.rng⟩ g.pipes).highScores := rfl
  refine ⟨?_, ?_, rfl⟩
  · rw [hst, h]
    exact (processPipes_invincible _ _ _ _ _).1
  · rw [hhs, h]
    exact (processPipes_invincible _ _ _ _ _).2

/-- stepRetain touches only the pipe list. -/
lemma stepRetain_fields (g : Game) :
    (Game.stepRetain g).state = g.state ∧
    (Game.stepRetain g).high_scores = g.high_scores ∧
    (Game.stepRetain g).invincible = g.invincible :=
  ⟨rfl, rfl, rfl⟩

/-- With the invincibility flag set, the ground/ceiling check is a no-op. -/
lemma stepGround_invincible (g : Game) (h : g.invincible = true) :
    Game.stepGround g = g := by
  simp only [Game.stepGround, h]
  simp

/-- stepParticles touches only the particle list. -/
lemma stepParticles_fields (g : Game) :
    (Game.stepParticles g).state = g.state ∧
    (Game.stepParticles g).high_scores = g.high_scores ∧
    (Game.stepParticles g).invincible = g.invincible :=
  ⟨rfl, rfl, rfl⟩

/-- C6: a Playing frame whose collision checks run with invincible=true
(the flag is set and not toggled off this frame) ends with the state
still Playing and the high scores untouched: no collision has any state
or score-store effect while invincible.  (Escape is excluded since the
pause transition leaves Playing without any collision check.) -/
theorem invincible_no_gameover :
    ∀ (g : Game) (inp : Input), g.state = GameState.playing →
      g.invincible = true → inp.keyI = false → inp.escape = false →
      (Game.update g inp).state = GameState.playing ∧
      (Game.update g inp).high_scores = g.high_scores := by
  intro g inp hst hinv hI hesc
  have hupd : Game.update g inp = Game.playingUpdate g inp := by
    unfold Game.update
    rw [hst]
  rw [hupd]
  unfold Game.playingUpdate
  rw [hesc]
  simp only [Bool.false_eq_true, if_false]
  set g1 := Game.handleToggles (Game.handleJump g inp) inp with hg1
  set ts := timeScale g1.slow_motion with hts
  have hj := handleJump_fields g inp
  have ht := handleToggles_fields (Game.handleJump g inp) inp
  have h1st : g1.state = GameState.playing := by rw [hg1, ht.1, hj.1, hst]
  have h1hs : g1.high_scores = g.high_scores := by rw [hg1, ht.2.1, hj.2.1]
  have h1inv : g1.invincible = true := by
    rw [hg1, handleToggles_invincible _ _ hI, hj.2.2.1, hinv]
  set g2 := Game.stepSpawn (Game.stepBackground (Game.stepBird g1) ts) ts with hg2
  have h2st : g2.state = GameState.playing := by
    rw [hg2, (stepSpawn_fields _ _).1, (stepBackground_fields _ _).1,
      (stepBird_fields _).1, h1st]
  have h2hs : g2.high_scores = g.high_scores := by
    rw [hg2, (stepSpawn_fields _ _).2.1, (stepBackground_fields _ _).2.1,
      (stepBird_fields _).2.1, h1hs]
  have h2inv : g2.invincible = true := by
    rw [hg2, (stepSpawn_fields _ _).2.2, (stepBackground_fields _ _).2.2,
      (stepBird_fields _).2.2, h1inv]
  set g3 := Game.stepPipes g2 ts with hg3
  have hp := stepPipes_invincible g2 ts h2inv
  have h3st : g3.state = GameState.playing := by rw [hg3, hp.1, h2st]
  have h3hs : g3.high_scores = g.high_scores := by rw [hg3, hp.2.1, h2hs]
  have h3inv : g3.invincible = true := by rw [hg3, hp.2.2, h2inv]
  set g4 := Game.stepRetain g3 with hg4
  have h4st : g4.state = GameState.playing := by rw [hg4, (stepRetain_fields _).1, h3st]
  have h4hs : g4.high_scores = g.high_scores := by rw [hg4, (stepRetain_fields _).2.1, h3hs]
  have h4inv : g4.invincible = true := by rw [hg4, (stepRetain_fields _).2.2, h3inv]
  rw [stepGround_invincible g4 h4inv]
  exact ⟨((stepParticles_fields g4).1).trans h4st,
    ((stepParticles_fields g4).2.1).trans h4hs⟩

/-- A pipe that, after one medium-speed advance (x: 142.5 to 140), overlaps
the bird hitbox of a bird at x = 150 falling from y = 300; already scored. -/
def pipeA : Pipe := ⟨285/2, 300, 180, true, Color.green, Color.green⟩

/-- A pipe that, after one medium-speed advance (x: 77.5 to 75), has its
right edge (135) past the bird x (150) but no hitbox overlap; not yet
scored. -/
def pipeB : Pipe := ⟨155/2, 300, 180, false, Color.green, Color.green⟩

/-- The bird at the spawn point. -/
def birdStart : Bird := Bird.new 150 300

/-- A Playing game with the colliding pipe and the invincibility cheat on. -/
def gInv : Game :=
  { bird := birdStart, pipes := [pipeA], particles := [], score := 0,
    high_scores := HighScores.defaultScores, state := GameState.playing,
    difficulty := Difficulty.medium, pipe_spawn_timer := 0,
    background_offset := 0, show_hitboxes := false, powerup_timer := 0,
    invincible := true, slow_motion := false, slow_motion_timer := 0,
    rng := rng0 }

/-- Witness for the C6 theorem: with the colliding pipe and invincible on,
the frame stays Playing and the stored bests are untouched. -/
theorem invincible_no_gameover_witness :
    gInv.state = GameState.playing ∧ gInv.invincible = true ∧
    Input.none.keyI = false ∧ Input.none.escape = false ∧
    (Game.update gInv Input.none).state = GameState.playing ∧
    (Game.update gInv Input.none).high_scores = gInv.high_scores :=
  ⟨rfl, rfl, rfl, rfl,
    (invincible_no_gameover gInv Input.none rfl rfl rfl rfl).1,
    (invincible_no_gameover gInv Input.none rfl rfl rfl rfl).2⟩

/-- The same frame as gInv but with two pipes and no invincibility: pipe A
collides, pipe B is freshly passed. -/
def gTwo : Game :=
  { bird := birdStart, pipes := [pipeA, pipeB], particles := [], score := 0,
    high_scores := HighScores.defaultScores, state := GameState.playing,
    difficulty := Difficulty.medium, pipe_spawn_timer := 0,
    background_offset := 0, show_hitboxes := false, powerup_timer := 0,
    invincible := false, slow_motion := false, slow_motion_timer := 0,
    rng := rng0 }

/-- With no wrap, the background phase just subtracts the scaled scroll. -/
lemma stepBackground_no_wrap (g : Game) (ts : ℚ)
    (h : ¬(g.background_offset - 1 * ts ≤ -50)) :
    Game.stepBackground g ts = { g with background_offset := g.background_offset - 1 * ts } := by
  simp only [Game.stepBackground]
  rw [if_neg h]

/-- Below the spawn threshold, the spawn phase just accumulates the scaled
timer. -/
lemma stepSpawn_no_spawn (g : Game) (ts : ℚ)
    (h : ¬(g.pipe_spawn_timer + 1 * ts > 90)) :
    Game.stepSpawn g ts = { g with pipe_spawn_timer := g.pipe_spawn_timer + 1 * ts } := by
  simp only [Game.stepSpawn]
  rw [if_neg h]

/-- The ground check and particle aging never touch the bird, the
background offset, the spawn timer or the pipe list. -/
lemma groundParticles_untouched (g : Game) :
    (Game.stepParticles (Game.stepGround g)).bird = g.bird ∧
    (Game.stepParticles (Game.stepGround g)).background_offset = g.background_offset ∧
    (Game.stepParticles (Game.stepGround g)).pipe_spawn_timer = g.pipe_spawn_timer ∧
    (Game.stepParticles (Game.stepGround g)).pipes = g.pipes := by
  simp only [Game.stepGround, Game.stepParticles]
  split <;> exact ⟨rfl, rfl, rfl, rfl⟩

/-- C1 (amended): in a Playing no-input frame (with no background wrap, no
spawn-threshold crossing, and no pipe leaving the screen), the time scale
(0.5 under slow motion, 1 otherwise) multiplies the background scroll, the
spawn-timer accumulation and the pipe x-advance — but the bird advances by
one full unscaled Bird::update regardless of slow motion. -/
theorem time_scaling_amended :
    ∀ g : Game, g.state = GameState.playing →
      (∀ p ∈ g.pipes,
        (Pipe.update p (g.difficulty.pipeSpeed * timeScale g.slow_motion)).isOffscreen = false) →
      ¬(g.pipe_spawn_timer + 1 * timeScale g.slow_motion > 90) →
      ¬(g.background_offset - 1 * timeScale g.slow_motion ≤ -50) →
      (Game.update g Input.none).bird = Bird.update g.bird ∧
      (Game.update g Input.none).background_offset =
        g.background_offset - 1 * timeScale g.slow_motion ∧
      (Game.update g Input.none).pipe_spawn_timer =
        g.pipe_spawn_timer + 1 * timeScale g.slow_motion ∧
      (Game.update g Input.none).pipes.map Pipe.x =
        g.pipes.map (fun p => p.x - g.difficulty.pipeSpeed * timeScale g.slow_motion) := by
  intro g hst hoff hsp hbg
  set ts := timeScale g.slow_motion with hts
  have h0 : Game.update g Input.none =
      Game.stepParticles (Game.stepGround (Game.stepRetain (Game.stepPipes
        (Game.stepSpawn (Game.stepBackground (Game.stepBird g) ts) ts) ts))) := by
    have h1 : Game.update g Input.none = Game.playingUpdate g Input.none := by
      unfold Game.update
      rw [hst]
    exact h1.trans rfl
  have hb : Game.stepBird g = { g with bird := Bird.update g.bird } := rfl
  have h2 : Game.stepBackground (Game.stepBird g) ts =
      { g with bird := Bird.update g.bird,
               background_offset := g.background_offset - 1 * ts } := by
    rw [hb, stepBackground_no_wrap { g with bird := Bird.update g.bird } ts hbg]
  have h3 : Game.stepSpawn (Game.stepBackground (Game.stepBird g) ts) ts =
      { g with bird := Bird.update g.bird,
               background_offset := g.background_offset - 1 * ts,
               pipe_spawn_timer := g.pipe_spawn_timer + 1 * ts } := by
    have hsp2 : ¬(({ g with bird := Bird.update g.bird, background_offset := g.background_offset - 1 * ts } : Game).pipe_spawn_timer + 1 * ts > 90) := hsp
    rw [h2, stepSpawn_no_spawn _ _ hsp2]
  set g4 : Game := ({ g with bird := Bird.update g.bird, background_offset := g.background_offset - 1 * ts, pipe_spawn_timer := g.pipe_spawn_timer + 1 * ts }) with hg4
  have hg4pipes : g4.pipes = g.pipes := rfl
  have hg4diff : g4.difficulty = g.difficulty := rfl
  have hp_pipes : (Game.stepPipes g4 ts).pipes =
      g4.pipes.map (stepPipe g4.bird (g4.difficulty.pipeSpeed * ts)) := by
    calc (Game.stepPipes g4 ts).pipes
        = (processPipes g4.bird g4.difficulty g4.invincible (g4.difficulty.pipeSpeed * ts)
            ⟨[], g4.score, g4.state, g4.high_scores, g4.particles, g4.rng⟩ g4.pipes).pipes := rfl
      _ = [] ++ g4.pipes.map (stepPipe g4.bird (g4.difficulty.pipeSpeed * ts)) :=
            processPipes_pipes g4.bird g4.difficulty g4.invincible
              (g4.difficulty.pipeSpeed * ts) g4.pipes _
      _ = g4.pipes.map (stepPipe g4.bird (g4.difficulty.pipeSpeed * ts)) := by simp
  have hretain : (Game.stepRetain (Game.stepPipes g4 ts)).pipes = (Game.stepPipes g4 ts).pipes := by
    show (Game.stepPipes g4 ts).pipes.filter (fun p => !p.isOffscreen) =
      (Game.stepPipes g4 ts).pipes
    apply List.filter_eq_self.mpr
    intro q hq
    rw [hp_pipes] at hq
    obtain ⟨p, hp, rfl⟩ := List.mem_map.mp hq
    have hx : (stepPipe g4.bird (g4.difficulty.pipeSpeed * ts) p).isOffscreen =
        (Pipe.update p (g4.difficulty.pipeSpeed * ts)).isOffscreen := by
      unfold Pipe.isOffscreen
      rw [stepPipe_x]
      rfl
    rw [hx, hg4diff]
    have hmem : p ∈ g.pipes := hg4pipes ▸ hp
    rw [hoff p hmem]
    rfl
  refine ⟨?_, ?_, ?_, ?_⟩
  · rw [h0, h3, (groundParticles_untouched _).1]
    rfl
  · rw [h0, h3, (groundParticles_untouched _).2.1]
    rfl
  · rw [h0, h3, (groundParticles_untouched _).2.2.1]
    rfl
  · rw [h0, h3, (groundParticles_untouched _).2.2.2, hretain, hp_pipes, List.map_map,
      hg4pipes]
    apply List.map_congr_left
    intro p hp
    show (stepPipe g4.bird (g4.difficulty.pipeSpeed * ts) p).x =
      p.x - g.difficulty.pipeSpeed * ts
    rw [stepPipe_x, hg4diff]

/-- A Playing game under slow motion with one pipe, used as the C1
witness/counterexample configuration. -/
def gSlow : Game :=
  { bird := birdStart, pipes := [pipeB], particles := [], score := 0,
    high_scores := HighScores.defaultScores, state := GameState.playing,
    difficulty := Difficulty.medium, pipe_spawn_timer := 0,
    background_offset := 0, show_hitboxes := false, powerup_timer := 0,
    invincible := false, slow_motion := true, slow_motion_timer := 0,
    rng := rng0 }

/-- The slow-motion game with no pipes (isolates bird motion). -/
def gSlowCx : Game := { gSlow with pipes := [] }

/-- The same pipeless game with slow motion off. -/
def gNormCx : Game := { gSlowCx with slow_motion := false }

/-- Witness for the C1 amended theorem at the concrete slow-motion game:
the pipe advances by half the medium speed (2.5 * 0.5 = 1.25), timer and
background advance by 0.5, the bird by a full update. -/
theorem time_scaling_amended_witness :
    gSlow.state = GameState.playing ∧
    (∀ p ∈ gSlow.pipes,
      (Pipe.update p (gSlow.difficulty.pipeSpeed * timeScale gSlow.slow_motion)).isOffscreen
        = false) ∧
    ¬(gSlow.pipe_spawn_timer + 1 * timeScale gSlow.slow_motion > 90) ∧
    ¬(gSlow.background_offset - 1 * timeScale gSlow.slow_motion ≤ -50) ∧
    (Game.update gSlow Input.none).bird = Bird.update gSlow.bird ∧
    (Game.update gSlow Input.none).background_offset =
      gSlow.background_offset - 1 * timeScale gSlow.slow_motion ∧
    (Game.update gSlow Input.none).pipe_spawn_timer =
      gSlow.pipe_spawn_timer + 1 * timeScale gSlow.slow_motion ∧
    (Game.update gSlow Input.none).pipes.map Pipe.x =
      gSlow.pipes.map (fun p => p.x - gSlow.difficulty.pipeSpeed * timeScale gSlow.slow_motion) := by
  have hoff : ∀ p ∈ gSlow.pipes,
      (Pipe.update p (gSlow.difficulty.pipeSpeed * timeScale gSlow.slow_motion)).isOffscreen
        = false := by
    intro p hp
    simp only [gSlow, List.mem_singleton] at hp
    subst hp
    norm_num [Pipe.update, Pipe.isOffscreen, pipeB, gSlow, Difficulty.pipeSpeed,
      timeScale, pipeWidth]
  have hsp : ¬(gSlow.pipe_spawn_timer + 1 * timeScale gSlow.slow_motion > 90) := by
    norm_num [gSlow, timeScale]
  have hbg : ¬(gSlow.background_offset - 1 * timeScale gSlow.slow_motion ≤ -50) := by
    norm_num [gSlow, timeScale]
  have h := time_scaling_amended gSlow rfl hoff hsp hbg
  exact ⟨rfl, hoff, hsp, hbg, h.1, h.2.1, h.2.2.1, h.2.2.2⟩

set_option maxRecDepth 4000 in
set_option maxHeartbeats 2000000 in
/-- C1 counterexample: slow motion is not a uniform time dilation.  The
bird update is never multiplied by time_scale (line 454 runs outside the
scaling), so from rest at y = 300, N = 2 slow-motion ticks displace the
bird by 1.5 — the full 2-tick displacement, equal to the displacement of
2 ticks with slow motion off — while ceil(N/2) = 1 tick with slow motion
off displaces it by only 0.5.  1.5 vs 0.5 is no integration-order
rounding gap: the bird is simply unscaled. -/
theorem slow_motion_claim_false :
    gSlowCx.slow_motion = true ∧ gNormCx.slow_motion = false ∧
    gSlowCx.bird.y = 300 ∧ gNormCx.bird.y = 300 ∧
    (Game.update (Game.update gSlowCx Input.none) Input.none).bird.y = 603/2 ∧
    (Game.update gNormCx Input.none).bird.y = 601/2 ∧
    (Game.update (Game.update gSlowCx Input.none) Input.none).bird.y - gSlowCx.bird.y ≠
      (Game.update gNormCx Input.none).bird.y - gNormCx.bird.y ∧
    (Game.update (Game.update gSlowCx Input.none) Input.none).bird.y =
      (Game.update (Game.update gNormCx Input.none) Input.none).bird.y := by
  norm_num [Game.update, Game.playingUpdate, Game.handleJump, Game.handleToggles,
    timeScale, Game.stepBird, Game.stepBackground, Game.stepSpawn, Game.stepPipes,
    Game.stepRetain, Game.stepGround, Game.stepParticles, Game.spawnPipe,
    processPipes, pipeStep, stepPipe, Pipe.update, Pipe.collidesWith,
    Pipe.isOffscreen, Rect.overlaps, Bird.update, Bird.getBounds, Bird.new,
    clampQ, gravity, HighScores.update, HighScores.get, HighScores.defaultScores,
    HighScores.setBest, Pipe.new, genRange, Rng.next, spawnParticles,
    Particle.update, Particle.isDead, gSlowCx, gNormCx, gSlow, birdStart, rng0,
    Input.none, pipeWidth, birdSize, groundHeight, screenH, screenW,
    Difficulty.pipeSpeed, Difficulty.pipeGap]

set_option maxRecDepth 4000 in
set_option maxHeartbeats 2000000 in
/-- C10: in the frame gTwo, pipe A collides (state becomes GameOver and
the high-score update runs with the score still 0, leaving the stored
medium best at 0), yet the loop continues: pipe B is still advanced
(x: 77.5 to 75) and freshly scored, raising the score to 1 in the same
update call — an increment the already-performed high-score update does
not see. -/
theorem collision_loop_continues :
    (Game.update gTwo Input.none).state = GameState.gameOver ∧
    (Game.update gTwo Input.none).score = 1 ∧
    (Game.update gTwo Input.none).high_scores = HighScores.defaultScores ∧
    (Game.update gTwo Input.none).pipes.map (fun p => (p.x, p.scored)) =
      [(140, true), (75, true)] := by
  norm_num [Game.update, Game.playingUpdate, Game.handleJump, Game.handleToggles,
    timeScale, Game.stepBird, Game.stepBackground, Game.stepSpawn, Game.stepPipes,
    Game.stepRetain, Game.stepGround, Game.stepParticles, Game.spawnPipe,
    processPipes, pipeStep, stepPipe, Pipe.update, Pipe.collidesWith,
    Pipe.isOffscreen, Rect.overlaps, Bird.update, Bird.getBounds, Bird.new,
    clampQ, gravity, HighScores.update, HighScores.get, HighScores.defaultScores,
    HighScores.setBest, Pipe.new, genRange, Rng.next, spawnParticles,
    Particle.update, Particle.isDead, gTwo, pipeA, pipeB, birdStart, rng0,
    Input.none, pipeWidth, birdSize, groundHeight, screenH, screenW,
    Difficulty.pipeSpeed, Difficulty.pipeGap]

/-- The start/retry input: space pressed, nothing else. -/
def inputStart : Input := { Input.none with space := true }

/-- A test particle for populating pre-reset state. -/
def particle0 : Particle := ⟨0, 0, 0, 0, 1, Color.red, 3⟩

/-- A Menu-state game with every resettable field dirty and the hitbox
toggle on. -/
def gMenuHit : Game :=
  { bird := ⟨150, 400, 7, 20, Color.yellow⟩, pipes := [pipeA],
    particles := [particle0], score := 5, high_scores := ⟨1, 2, 3, 4⟩,
    state := GameState.menu, difficulty := Difficulty.hard,
    pipe_spawn_timer := 42, background_offset := -10, show_hitboxes := true,
    powerup_timer := 0, invincible := true, slow_motion := true,
    slow_motion_timer := 3, rng := rng0 }

/-- C3 counterexample: Game::reset does not clear show_hitboxes.  A start
input in Menu with the hitbox toggle on enters Playing with the toggle
still on, contradicting the claim that the hitbox-display toggle is
cleared to false on every transition into Playing. -/
theorem reset_keeps_hitbox_toggle :
    gMenuHit.state = GameState.menu ∧ gMenuHit.show_hitboxes = true ∧
    (inputStart.space || inputStart.enter) = true ∧
    (Game.update gMenuHit inputStart).state = GameState.playing ∧
    (Game.update gMenuHit inputStart).show_hitboxes = true := by
  refine ⟨rfl, rfl, rfl, ?_, ?_⟩ <;>
    norm_num [Game.update, Game.menuUpdate, Game.selectDifficulty, Game.reset,
      gMenuHit, inputStart, Input.none, Bird.new, screenH]

/-- The difficulty-select chain only ever touches the difficulty field. -/
lemma selectDifficulty_fields (g : Game) (inp : Input) :
    (Game.selectDifficulty g inp).state = g.state ∧
    (Game.selectDifficulty g inp).bird = g.bird ∧
    (Game.selectDifficulty g inp).pipes = g.pipes ∧
    (Game.selectDifficulty g inp).particles = g.particles ∧
    (Game.selectDifficulty g inp).score = g.score ∧
    (Game.selectDifficulty g inp).pipe_spawn_timer = g.pipe_spawn_timer ∧
    (Game.selectDifficulty g inp).slow_motion_timer = g.slow_motion_timer ∧
    (Game.selectDifficulty g inp).invincible = g.invincible ∧
    (Game.selectDifficulty g inp).slow_motion = g.slow_motion ∧
    (Game.selectDifficulty g inp).show_hitboxes = g.show_hitboxes := by
  obtain ⟨s, e, esc, m, kh, ki, ks, kq, k1, k2, k3, k4⟩ := inp
  cases k1 <;> cases k2 <;> cases k3 <;> cases k4 <;>
    exact ⟨rfl, rfl, rfl, rfl, rfl, rfl, rfl, rfl, rfl, rfl⟩

/-- C3 (amended): every transition into Playing — from Menu on start, or
from GameOver on retry (without a simultaneous quit-to-menu input) — runs
the full reset first: fresh bird at (150, 300), empty pipe and particle
lists, score 0, spawn and slow-motion timers 0, invincible and
slow_motion false; the hitbox-display toggle however is NOT cleared: it
keeps its previous value. -/
theorem reset_on_enter_playing :
    ∀ (g : Game) (inp : Input),
      (g.state = GameState.menu ∨
        (g.state = GameState.gameOver ∧ inp.escape = false ∧ inp.keyQ = false)) →
      (inp.space || inp.enter) = true →
      (Game.update g inp).state = GameState.playing ∧
      (Game.update g inp).bird = Bird.new 150 (screenH / 2) ∧
      (Game.update g inp).pipes = [] ∧
      (Game.update g inp).particles = [] ∧
      (Game.update g inp).score = 0 ∧
      (Game.update g inp).pipe_spawn_timer = 0 ∧
      (Game.update g inp).slow_motion_timer = 0 ∧
      (Game.update g inp).invincible = false ∧
      (Game.update g inp).slow_motion = false ∧
      (Game.update g inp).show_hitboxes = g.show_hitboxes := by
  intro g inp h hstart
  rcases h with hm | ⟨hgo, hesc, hq⟩
  · have h0 : Game.update g inp = Game.menuUpdate g inp := by
      unfold Game.update
      rw [hm]
    rw [h0]
    unfold Game.menuUpdate
    rw [if_pos hstart]
    have hs := selectDifficulty_fields { g.reset with state := GameState.playing } inp
    refine ⟨hs.1.trans rfl, hs.2.1.trans rfl, hs.2.2.1.trans rfl, hs.2.2.2.1.trans rfl,
      hs.2.2.2.2.1.trans rfl, hs.2.2.2.2.2.1.trans rfl, hs.2.2.2.2.2.2.1.trans rfl,
      hs.2.2.2.2.2.2.2.1.trans rfl, hs.2.2.2.2.2.2.2.2.1.trans rfl,
      hs.2.2.2.2.2.2.2.2.2.trans rfl⟩
  · have h0 : Game.update g inp = Game.gameOverUpdate g inp := by
      unfold Game.update
      rw [hgo]
    rw [h0]
    unfold Game.gameOverUpdate
    rw [if_pos hstart, hesc, hq]
    exact ⟨rfl, rfl, rfl, rfl, rfl, rfl, rfl, rfl, rfl, rfl⟩

/-- Witness for the C3 amended theorem: the dirty Menu game entered with
start input is fully reset, except the hitbox toggle which stays true. -/
theorem reset_on_enter_playing_witness :
    (gMenuHit.state = GameState.menu ∨
      (gMenuHit.state = GameState.gameOver ∧ inputStart.escape = false ∧
        inputStart.keyQ = false)) ∧
    (inputStart.space || inputStart.enter) = true ∧
    (Game.update gMenuHit inputStart).state = GameState.playing ∧
    (Game.update gMenuHit inputStart).pipes = [] ∧
    (Game.update gMenuHit inputStart).particles = [] ∧
    (Game.update gMenuHit inputStart).score = 0 ∧
    (Game.update gMenuHit inputStart).invincible = false ∧
    (Game.update gMenuHit inputStart).show_hitboxes = gMenuHit.show_hitboxes := by
  have h := reset_on_enter_playing gMenuHit inputStart (Or.inl rfl) rfl
  exact ⟨Or.inl rfl, rfl, h.1, h.2.2.1, h.2.2.2.1, h.2.2.2.2.1, h.2.2.2.2.2.2.2.1,
    h.2.2.2.2.2.2.2.2.2⟩
